import Mathlib

/-!
Verification of the model-adaptive restoration pipeline of
`super_resolution_upscaler` (`src/main.rs`).

The embedding is a shallow one, at the level of image dimensions, pixel
values and tensor shapes:

* images are dimensioned pixel maps (`Img`);
* 4-D tensors are a declared shape plus a data map (`Tensor4`);
* the source's `f32` arithmetic is modelled exactly over `ℚ`, with the
  Rust casts `as u32` / `as u8` (truncation toward zero of non-negative
  values) modelled as `Int.floor` followed by `Int.toNat`;
* fallible steps return `Except String` mirroring the source's `Result`,
  and a Rust panic (out-of-bounds `ndarray` index) is modelled as `none`
  of an `Option`;
* the opaque ONNX inference engine is a parameter of the pipeline model
  (`infer`), so properties that must hold before or independently of
  inference are quantified over it.

Definitions follow the source functions of the same name; the single
definition translated from the specification's words instead of the
source is marked `Modelled from the spec`.
-/

namespace SRU

/-- Tensor memory layout declared by a model profile (`enum TensorFormat`). -/
inductive TensorFormat where
  | NCHW
  | NHWC
deriving DecidableEq, Repr

/-- Value range declared for normalization (`enum NormalizationRange`). -/
inductive NormalizationRange where
  | ZeroOne
  | MinusOneOne
deriving DecidableEq, Repr

/-- Model category (`enum ModelType`). -/
inductive ModelType where
  | Upscaling
  | Denoising
  | Enhancement
deriving DecidableEq, Repr

/-- Per-model descriptor (`struct ModelInfo`). -/
structure ModelInfo where
  name : String
  url : String
  model_type : ModelType
  scale : ℕ
  window_size : ℕ
  description : String
  category : String
  tensor_format : TensorFormat
  input_norm : NormalizationRange
  output_norm : NormalizationRange
  min_dimension : Option ℕ
deriving DecidableEq, Repr

/-- An RGB image: dimensions plus a pixel map.  `pixel x y c` is the byte
value of channel `c` at column `x`, row `y` (`image::RgbImage`). -/
structure Img where
  width : ℕ
  height : ℕ
  pixel : ℕ → ℕ → ℕ → ℕ

/-- A rank-4 float tensor (`ndarray::Array4<f32>`): a declared shape
`(batch, channels, height, width)` and a data map indexed the same way. -/
structure Tensor4 where
  shape : ℕ × ℕ × ℕ × ℕ
  data : ℕ → ℕ → ℕ → ℕ → ℚ

/-- The per-channel encode map selected in `preprocess_image_for_model`:
`MinusOneOne ↦ val / 127.5 - 1.0`, `ZeroOne ↦ val / 255.0`. -/
def normalize_fn (r : NormalizationRange) (v : ℕ) : ℚ :=
  match r with
  | .MinusOneOne => (v : ℚ) / 127.5 - 1
  | .ZeroOne => (v : ℚ) / 255

/-- The per-channel decode map selected in `postprocess_tensor_for_model`:
`MinusOneOne ↦ ((val + 1.0) * 127.5).clamp(0.0, 255.0) as u8`,
`ZeroOne ↦ (val * 255.0).clamp(0.0, 255.0) as u8`.  Rust `clamp(lo, hi)`
is `min (max v lo) hi`, and `as u8` of a value already clamped to
`[0, 255]` truncates toward zero, i.e. takes the floor. -/
def denormalize_fn (r : NormalizationRange) (v : ℚ) : ℕ :=
  match r with
  | .MinusOneOne => (Int.floor (min (max ((v + 1) * 127.5) 0) 255)).toNat
  | .ZeroOne => (Int.floor (min (max (v * 255) 0) 255)).toNat

/-- `preprocess_image_for_model`: the encode step.  The source always
allocates `Array4::zeros((1, 3, h, w))` and writes
`tensor[[0, c, y, x]] = normalize(p[c])`; the declared `tensor_format`
of the model is not consulted. -/
def preprocess_image_for_model (img : Img) (m : ModelInfo) : Tensor4 :=
  { shape := (1, 3, img.height, img.width)
    data := fun b c y x =>
      if b = 0 ∧ c < 3 ∧ y < img.height ∧ x < img.width then
        normalize_fn m.input_norm (img.pixel x y c)
      else 0 }

/-- `postprocess_tensor_for_model`: the decode step.  Height and width are
read from the tensor's own shape (`shape[2]`, `shape[3]`); `shape[1]` is
bound to `_` and never checked.  The loops index `tensor[[0, c, y, x]]`
for `c ∈ {0,1,2}`, `y < h`, `x < w`, which panics (modelled as `none`)
exactly when some such index is out of bounds of the declared shape:
when `h` and `w` are positive and the batch extent is `0` or the channel
extent is below `3`. -/
def postprocess_tensor_for_model (t : Tensor4) (m : ModelInfo) : Option Img :=
  let h := t.shape.2.2.1
  let w := t.shape.2.2.2
  if 0 < h ∧ 0 < w ∧ (t.shape.1 = 0 ∨ t.shape.2.1 < 3) then none
  else
    some { width := w, height := h
           pixel := fun x y c => denormalize_fn m.output_norm (t.data 0 c y x) }

/-- The padded dimensions computed by `pad_to_multiple`:
`pad_w = ((w + multiple - 1) / multiple) * multiple` and likewise for the
height (integer division). -/
def pad_dims (w h mult : ℕ) : ℕ × ℕ :=
  (((w + mult - 1) / mult) * mult, ((h + mult - 1) / mult) * mult)

/-- The edge-reflection source coordinate of `pad_to_multiple`:
`if x < w { x } else { w - 1 - (x - w).min(w - 1) }` (`u32` arithmetic;
subtraction in `ℕ` is truncated exactly as unsigned subtraction would
underflow, which the safety theorem rules out). -/
def reflect_src (dim x : ℕ) : ℕ :=
  if x < dim then x else dim - 1 - min (x - dim) (dim - 1)

/-- `pad_to_multiple`: pads an image up to the next multiple of `mult` in
each dimension, filling the extension by edge reflection; returns the
(possibly unchanged) image, its dimensions, and the right/bottom pad. -/
def pad_to_multiple (img : Img) (mult : ℕ) : Img × (ℕ × ℕ) × (ℕ × ℕ) :=
  let w := img.width
  let h := img.height
  let pad_w := (pad_dims w h mult).1
  let pad_h := (pad_dims w h mult).2
  let pad_r := pad_w - w
  let pad_b := pad_h - h
  if pad_r = 0 ∧ pad_b = 0 then (img, (w, h), (0, 0))
  else
    ({ width := pad_w, height := pad_h
       pixel := fun x y c => img.pixel (reflect_src w x) (reflect_src h y) c },
     (pad_w, pad_h), (pad_r, pad_b))

/-- The resize policy in `process_single_image` (lines 1407–1432).
`min_dim = model.min_dimension.unwrap_or(0)`, `max_dim = 512.max(min_dim)`;
an image is resized when a dimension exceeds `max_dim` or falls below
`min_dim`, scaling up to the minimum (scale `= max(min_dim / min(w,h), 1)`)
or down to the cap (scale `= min(max_dim / max(w,h), 1)`); the `f32`
products are cast with `as u32`, i.e. truncated. -/
def resize_target_dims (orig_w orig_h min_dim : ℕ) : ℕ × ℕ :=
  let max_dim := max 512 min_dim
  if orig_w > max_dim ∨ orig_h > max_dim ∨ orig_w < min_dim ∨ orig_h < min_dim then
    if orig_w < min_dim ∨ orig_h < min_dim then
      let scale : ℚ := max ((min_dim : ℚ) / (min orig_w orig_h : ℕ)) 1
      ((Int.floor ((orig_w : ℚ) * scale)).toNat, (Int.floor ((orig_h : ℚ) * scale)).toNat)
    else
      let scale : ℚ := min ((max_dim : ℚ) / (max orig_w orig_h : ℕ)) 1
      ((Int.floor ((orig_w : ℚ) * scale)).toNat, (Int.floor ((orig_h : ℚ) * scale)).toNat)
  else (orig_w, orig_h)

/-- Modelled from the spec: the SizePolicy of §4.1 with its stated
rounding rule "round resulting dimensions to nearest integer", in place
of the source's truncating cast.  Used only to compare the spec's
rounding rule with the source's behaviour. -/
def resize_target_dims_round (orig_w orig_h min_dim : ℕ) : ℕ × ℕ :=
  let max_dim := max 512 min_dim
  if orig_w > max_dim ∨ orig_h > max_dim ∨ orig_w < min_dim ∨ orig_h < min_dim then
    if orig_w < min_dim ∨ orig_h < min_dim then
      let scale : ℚ := max ((min_dim : ℚ) / (min orig_w orig_h : ℕ)) 1
      ((round ((orig_w : ℚ) * scale)).toNat, (round ((orig_h : ℚ) * scale)).toNat)
    else
      let scale : ℚ := min ((max_dim : ℚ) / (max orig_w orig_h : ℕ)) 1
      ((round ((orig_w : ℚ) * scale)).toNat, (round ((orig_h : ℚ) * scale)).toNat)
  else (orig_w, orig_h)

/-- The working (pre-padding) dimensions an original image is resized to
in `process_single_image`, for a given model. -/
def working_dims (m : ModelInfo) (orig_w orig_h : ℕ) : ℕ × ℕ :=
  resize_target_dims orig_w orig_h (m.min_dimension.getD 0)

/-- Dimensions produced by `DynamicImage::crop_imm(0, 0, tw, th)`: the
crop rectangle is intersected with the image bounds, so the result is
`(min tw w, min th h)`. -/
def crop_dims (img_w img_h tw th : ℕ) : ℕ × ℕ :=
  (min tw img_w, min th img_h)

/-- The dimension-level pipeline of `process_single_image` (lines
1404–1507): resize by policy, pad to the window multiple when
`window_size > 1`, reject zero padded dimensions with the
`"Invalid padded dimensions"` error before the encode/inference steps,
run the opaque inference `infer` on the padded dimensions, and — only
when padding was non-zero — crop the decoded output to the pre-padding
working dimensions times `scale`. -/
def process_single_image_dims (m : ModelInfo) (infer : ℕ × ℕ → ℕ × ℕ)
    (orig_w orig_h : ℕ) : Except String (ℕ × ℕ) :=
  let wd := working_dims m orig_w orig_h
  let pd := if 1 < m.window_size then pad_dims wd.1 wd.2 m.window_size else wd
  let pad_r := pd.1 - wd.1
  let pad_b := pd.2 - wd.2
  if pd.1 = 0 ∨ pd.2 = 0 then .error "Invalid padded dimensions"
  else
    let od := infer pd
    let final :=
      if 0 < pad_r ∨ 0 < pad_b then crop_dims od.1 od.2 (wd.1 * m.scale) (wd.2 * m.scale)
      else od
    .ok final

/-- The per-item loop of `process_images` (lines 1561–1576): successful
results are pushed onto the accumulator; a failed item is logged and
skipped, and iteration continues with the remaining items. -/
def process_images_loop {α β : Type} (step : α → Except String β) :
    List α → List β → List β
  | [], results => results
  | f :: rest, results =>
    match step f with
    | .ok r => process_images_loop step rest (results ++ [r])
    | .error _ => process_images_loop step rest results

/-- The batch call `process_images` (lines 1541–1586), at the level of
the per-item loop: it always returns `Ok` of the accumulated successes
(the surrounding one-off setup steps — ONNX initialisation, output
directory creation — are outside the loop and not modelled). -/
def process_images_model {α β : Type} (step : α → Except String β)
    (files : List α) : Except String (List β) :=
  .ok (process_images_loop step files [])

/-- The frame-processing and reassembly phases of `process_video_blocking`
(lines 1755–1946): fail if no frames were extracted; process every frame,
merely printing the error of a failed frame (`Err(e) => eprintln!`); then
proceed to reassembly over whatever frames succeeded.  `reassemble`
abstracts the external encode tool invocation. -/
def process_video_blocking_model {α β γ : Type} (step : α → Except String β)
    (reassemble : List β → Except String γ) (frames : List α) :
    Except String γ :=
  if frames.isEmpty then .error "No frames extracted from video"
  else reassemble (frames.filterMap fun f => (step f).toOption)

/-- The `denoiser` entry of the model table (lines 402–414): the one
profile whose declared tensor layout is `NHWC`. -/
def denoiser_model : ModelInfo :=
  { name := "denoiser"
    url := "denoiser"
    model_type := .Denoising
    scale := 1
    window_size := 64
    description := "(Train)"
    category := "Denoiser"
    tensor_format := .NHWC
    input_norm := .ZeroOne
    output_norm := .ZeroOne
    min_dimension := none }

/-! ### Helper lemmas -/

theorem le_pad_dim (w mult : ℕ) (hm : 0 < mult) :
    w ≤ ((w + mult - 1) / mult) * mult := by
  have h := le_smul_ceilDiv (b := w) hm
  rwa [smul_eq_mul, Nat.ceilDiv_eq_add_pred_div, mul_comm] at h

theorem pad_dim_lt (w mult : ℕ) (hm : 0 < mult) :
    ((w + mult - 1) / mult) * mult < w + mult := by
  calc ((w + mult - 1) / mult) * mult ≤ w + mult - 1 := Nat.div_mul_le_self _ _
    _ < w + mult := by omega

theorem pad_dim_eq_of_dvd (w mult : ℕ) (hm : 0 < mult) (h : mult ∣ w) :
    ((w + mult - 1) / mult) * mult = w := by
  obtain ⟨k, hk⟩ := h
  subst hk
  have h1 : mult * k + mult - 1 = mult * k + (mult - 1) := by omega
  rw [h1, Nat.mul_add_div hm, Nat.div_eq_of_lt (by omega), Nat.add_zero, mul_comm]

theorem roundtrip_exact (r : NormalizationRange) (v : ℕ) (hv : v ≤ 255) :
    denormalize_fn r (normalize_fn r v) = v := by
  have hv' : (v : ℚ) ≤ 255 := by exact_mod_cast hv
  cases r with
  | ZeroOne =>
    simp only [normalize_fn, denormalize_fn]
    rw [div_mul_cancel₀ _ (by norm_num : (255 : ℚ) ≠ 0),
      max_eq_left (by positivity), min_eq_left hv', Int.floor_natCast]
    simp
  | MinusOneOne =>
    simp only [normalize_fn, denormalize_fn]
    have h1 : ((v : ℚ) / 127.5 - 1 + 1) * 127.5 = v := by field_simp
    rw [h1, max_eq_left (by positivity), min_eq_left hv', Int.floor_natCast]
    simp

theorem resize_eval_1000_300 : resize_target_dims 1000 300 0 = (512, 153) := by
  rw [resize_target_dims]
  norm_num [Prod.ext_iff]
  decide

theorem resize_eval_32_32 : resize_target_dims 32 32 512 = (512, 512) := by
  rw [resize_target_dims]
  norm_num [Prod.ext_iff]
  decide

theorem resize_eval_10000_1 : resize_target_dims 10000 1 0 = (512, 0) := by
  rw [resize_target_dims]
  norm_num [Prod.ext_iff]
  decide

theorem round_eval_1000_300 : resize_target_dims_round 1000 300 0 = (512, 154) := by
  rw [resize_target_dims_round]
  norm_num [Prod.ext_iff, round_eq]
  decide

/-! ### Claims -/

/-- C2: for every pixel value `v ∈ [0, 255]` and both normalization
ranges, decoding the encoded value recovers `v` within ±1 (in fact, in
the exact-arithmetic model of the `f32` computation, exactly). -/
theorem normalization_roundtrip (r : NormalizationRange) (v : ℕ) (hv : v ≤ 255) :
    Nat.dist (denormalize_fn r (normalize_fn r v)) v ≤ 1 := by
  rw [roundtrip_exact r v hv, Nat.dist_self]
  omega

/-- Witness for C2 at `v = 37` in the `[-1, 1]` range. -/
theorem normalization_roundtrip_witness :
    37 ≤ 255 ∧ Nat.dist (denormalize_fn .MinusOneOne (normalize_fn .MinusOneOne 37)) 37 ≤ 1 :=
  ⟨by decide, normalization_roundtrip .MinusOneOne 37 (by decide)⟩

/-- C3: for every image with positive dimensions and every `mult ≥ 1`,
`pad_to_multiple` produces dimensions divisible by `mult`, at least the
original dimensions, and less than the original plus `mult` — together
with divisibility this says they are exactly `(⌈w/mult⌉·mult, ⌈h/mult⌉·mult)`;
and when `mult ≤ 1` or both dimensions are already multiples of `mult`,
the image is returned unchanged with zero right/bottom padding. -/
theorem pad_to_multiple_postconditions (img : Img) (mult : ℕ)
    (hm : 1 ≤ mult) (hw : 1 ≤ img.width) (hh : 1 ≤ img.height) :
    (mult ∣ (pad_to_multiple img mult).2.1.1 ∧ mult ∣ (pad_to_multiple img mult).2.1.2 ∧
      img.width ≤ (pad_to_multiple img mult).2.1.1 ∧
      img.height ≤ (pad_to_multiple img mult).2.1.2 ∧
      (pad_to_multiple img mult).2.1.1 < img.width + mult ∧
      (pad_to_multiple img mult).2.1.2 < img.height + mult) ∧
    ((mult ≤ 1 ∨ (mult ∣ img.width ∧ mult ∣ img.height)) →
      pad_to_multiple img mult = (img, (img.width, img.height), (0, 0))) := by
  have hm' : 0 < mult := hm
  have hle_w := le_pad_dim img.width mult hm'
  have hle_h := le_pad_dim img.height mult hm'
  have hdims : (pad_to_multiple img mult).2.1 =
      pad_dims img.width img.height mult := by
    rw [pad_to_multiple]
    split
    · next hpz =>
      simp only [pad_dims] at hpz ⊢
      have h1 : ((img.width + mult - 1) / mult) * mult = img.width := by omega
      have h2 : ((img.height + mult - 1) / mult) * mult = img.height := by omega
      simp [h1, h2]
    · rfl
  constructor
  · rw [hdims]
    simp only [pad_dims]
    exact ⟨dvd_mul_left mult _, dvd_mul_left mult _, hle_w, hle_h,
      pad_dim_lt img.width mult hm', pad_dim_lt img.height mult hm'⟩
  · intro hcond
    have h1 : ((img.width + mult - 1) / mult) * mult = img.width := by
      rcases hcond with h | ⟨h, _⟩
      · have : mult = 1 := by omega
        subst this
        simp
      · exact pad_dim_eq_of_dvd _ _ hm' h
    have h2 : ((img.height + mult - 1) / mult) * mult = img.height := by
      rcases hcond with h | ⟨_, h⟩
      · have : mult = 1 := by omega
        subst this
        simp
      · exact pad_dim_eq_of_dvd _ _ hm' h
    rw [pad_to_multiple]
    split
    · rfl
    · next hneg =>
      exact absurd ⟨by simp [pad_dims, h1], by simp [pad_dims, h2]⟩ hneg

/-- Witness for C3: a 3×2 image padded to a multiple of 4. -/
theorem pad_to_multiple_postconditions_witness :
    (1 : ℕ) ≤ 4 ∧ 1 ≤ (Img.mk 3 2 fun _ _ _ => 0).width ∧
      1 ≤ (Img.mk 3 2 fun _ _ _ => 0).height ∧
      (4 ∣ (pad_to_multiple (Img.mk 3 2 fun _ _ _ => 0) 4).2.1.1 ∧
        4 ∣ (pad_to_multiple (Img.mk 3 2 fun _ _ _ => 0) 4).2.1.2 ∧
        (Img.mk 3 2 fun _ _ _ => 0).width ≤ (pad_to_multiple (Img.mk 3 2 fun _ _ _ => 0) 4).2.1.1 ∧
        (Img.mk 3 2 fun _ _ _ => 0).height ≤ (pad_to_multiple (Img.mk 3 2 fun _ _ _ => 0) 4).2.1.2 ∧
        (pad_to_multiple (Img.mk 3 2 fun _ _ _ => 0) 4).2.1.1 < (Img.mk 3 2 fun _ _ _ => 0).width + 4 ∧
        (pad_to_multiple (Img.mk 3 2 fun _ _ _ => 0) 4).2.1.2 < (Img.mk 3 2 fun _ _ _ => 0).height + 4) ∧
      ((4 ≤ 1 ∨ (4 ∣ (Img.mk 3 2 fun _ _ _ => 0).width ∧ 4 ∣ (Img.mk 3 2 fun _ _ _ => 0).height)) →
        pad_to_multiple (Img.mk 3 2 fun _ _ _ => 0) 4 =
          (Img.mk 3 2 fun _ _ _ => 0, ((Img.mk 3 2 fun _ _ _ => 0).width, (Img.mk 3 2 fun _ _ _ => 0).height), (0, 0))) :=
  ⟨by decide, by decide, by decide,
    pad_to_multiple_postconditions (Img.mk 3 2 fun _ _ _ => 0) 4 (by decide) (by decide) (by decide)⟩

/-- C9: for every image with positive dimensions and any multiple, the
edge-reflection source coordinates of `pad_to_multiple` are always
strictly inside the original image, and the `u32` subtraction
`w - 1 - min (x - w) (w - 1)` never underflows (the subtrahend is at most
`w - 1`); consequently every pixel the padded image reads comes from an
in-bounds coordinate of the original. -/
theorem pad_reflection_safe (img : Img) (mult : ℕ)
    (hw : 1 ≤ img.width) (hh : 1 ≤ img.height) :
    (∀ x, min (x - img.width) (img.width - 1) ≤ img.width - 1 ∧
      reflect_src img.width x < img.width) ∧
    (∀ x y c, x < (pad_to_multiple img mult).2.1.1 →
      y < (pad_to_multiple img mult).2.1.2 →
      ∃ sx sy, sx < img.width ∧ sy < img.height ∧
        (pad_to_multiple img mult).1.pixel x y c = img.pixel sx sy c) := by
  have hrefl : ∀ d x, 1 ≤ d → reflect_src d x < d := by
    intro d x hd
    rw [reflect_src]
    split
    · assumption
    · omega
  refine ⟨fun x => ⟨min_le_right _ _, hrefl _ x hw⟩, ?_⟩
  intro x y c hx hy
  rw [pad_to_multiple] at hx hy ⊢
  by_cases hpz : (pad_dims img.width img.height mult).1 - img.width = 0 ∧
      (pad_dims img.width img.height mult).2 - img.height = 0
  · rw [if_pos hpz] at hx hy ⊢
    exact ⟨x, y, by simpa using hx, by simpa using hy, rfl⟩
  · rw [if_neg hpz] at hx hy ⊢
    exact ⟨reflect_src img.width x, reflect_src img.height y,
      hrefl _ x hw, hrefl _ y hh, rfl⟩

/-- Witness for C9: a 3×2 image and multiple 4. -/
theorem pad_reflection_safe_witness :
    1 ≤ (Img.mk 3 2 fun _ _ _ => 0).width ∧ 1 ≤ (Img.mk 3 2 fun _ _ _ => 0).height ∧
    ((∀ x, min (x - (Img.mk 3 2 fun _ _ _ => 0).width) ((Img.mk 3 2 fun _ _ _ => 0).width - 1) ≤
        (Img.mk 3 2 fun _ _ _ => 0).width - 1 ∧
      reflect_src (Img.mk 3 2 fun _ _ _ => 0).width x < (Img.mk 3 2 fun _ _ _ => 0).width) ∧
    (∀ x y c, x < (pad_to_multiple (Img.mk 3 2 fun _ _ _ => 0) 4).2.1.1 →
      y < (pad_to_multiple (Img.mk 3 2 fun _ _ _ => 0) 4).2.1.2 →
      ∃ sx sy, sx < (Img.mk 3 2 fun _ _ _ => 0).width ∧ sy < (Img.mk 3 2 fun _ _ _ => 0).height ∧
        (pad_to_multiple (Img.mk 3 2 fun _ _ _ => 0) 4).1.pixel x y c =
          (Img.mk 3 2 fun _ _ _ => 0).pixel sx sy c)) :=
  ⟨by decide, by decide,
    pad_reflection_safe (Img.mk 3 2 fun _ _ _ => 0) 4 (by decide) (by decide)⟩

/-- C1: for every image whose resized (pre-padding) working dimensions
are `(w, h)` and that required non-zero padding, the pipeline crops the
decoded model output to exactly `(w·scale, h·scale)` — and this differs
from the padded dimensions times `scale`.  The opaque inference engine is
instantiated with its declared contract (output spatial dims are the
input's times `scale`). -/
theorem crop_target_uses_prepad_dims (m : ModelInfo) (orig_w orig_h : ℕ)
    (hscale : 1 ≤ m.scale) (hwin : 1 < m.window_size)
    (hw : 1 ≤ (working_dims m orig_w orig_h).1)
    (hh : 1 ≤ (working_dims m orig_w orig_h).2)
    (hpad : pad_dims (working_dims m orig_w orig_h).1 (working_dims m orig_w orig_h).2
        m.window_size ≠ working_dims m orig_w orig_h) :
    process_single_image_dims m (fun d => (d.1 * m.scale, d.2 * m.scale)) orig_w orig_h
      = .ok ((working_dims m orig_w orig_h).1 * m.scale,
             (working_dims m orig_w orig_h).2 * m.scale) ∧
    ((working_dims m orig_w orig_h).1 * m.scale,
     (working_dims m orig_w orig_h).2 * m.scale) ≠
      ((pad_dims (working_dims m orig_w orig_h).1 (working_dims m orig_w orig_h).2
          m.window_size).1 * m.scale,
       (pad_dims (working_dims m orig_w orig_h).1 (working_dims m orig_w orig_h).2
          m.window_size).2 * m.scale) := by
  set wd := working_dims m orig_w orig_h with hwd
  set pd := pad_dims wd.1 wd.2 m.window_size with hpd
  have hw1 : wd.1 ≤ pd.1 := by
    rw [hpd]
    exact le_pad_dim wd.1 m.window_size (by omega)
  have hh1 : wd.2 ≤ pd.2 := by
    rw [hpd]
    exact le_pad_dim wd.2 m.window_size (by omega)
  have hcomp : pd.1 ≠ wd.1 ∨ pd.2 ≠ wd.2 := by
    by_contra hcon
    push_neg at hcon
    exact hpad (Prod.ext hcon.1 hcon.2)
  have hguard : ¬(pd.1 = 0 ∨ pd.2 = 0) := by omega
  have hpads : 0 < pd.1 - wd.1 ∨ 0 < pd.2 - wd.2 := by
    rcases hcomp with hne | hne
    · left
      omega
    · right
      omega
  constructor
  · simp only [process_single_image_dims]
    rw [← hwd, if_pos hwin, ← hpd, if_neg hguard, if_pos hpads, crop_dims]
    rw [min_eq_left (mul_le_mul_right' hw1 m.scale),
      min_eq_left (mul_le_mul_right' hh1 m.scale)]
  · intro hcon
    rw [Prod.mk.injEq] at hcon
    rcases hcomp with hne | hne
    · have hlt : wd.1 < pd.1 := lt_of_le_of_ne hw1 (Ne.symm hne)
      have := mul_lt_mul_of_pos_right hlt (show 0 < m.scale by omega)
      omega
    · have hlt : wd.2 < pd.2 := lt_of_le_of_ne hh1 (Ne.symm hne)
      have := mul_lt_mul_of_pos_right hlt (show 0 < m.scale by omega)
      omega

/-- Witness for C1: the `denoiser` profile (window 64, scale 1) on a
100×50 image: working dims stay 100×50, padded dims are 128×64, and the
crop target is 100×50, not 128×64. -/
theorem crop_target_uses_prepad_dims_witness :
    1 ≤ denoiser_model.scale ∧ 1 < denoiser_model.window_size ∧
    1 ≤ (working_dims denoiser_model 100 50).1 ∧
    1 ≤ (working_dims denoiser_model 100 50).2 ∧
    pad_dims (working_dims denoiser_model 100 50).1 (working_dims denoiser_model 100 50).2
      denoiser_model.window_size ≠ working_dims denoiser_model 100 50 ∧
    (process_single_image_dims denoiser_model
        (fun d => (d.1 * denoiser_model.scale, d.2 * denoiser_model.scale)) 100 50
      = .ok ((working_dims denoiser_model 100 50).1 * denoiser_model.scale,
             (working_dims denoiser_model 100 50).2 * denoiser_model.scale) ∧
    ((working_dims denoiser_model 100 50).1 * denoiser_model.scale,
     (working_dims denoiser_model 100 50).2 * denoiser_model.scale) ≠
      ((pad_dims (working_dims denoiser_model 100 50).1 (working_dims denoiser_model 100 50).2
          denoiser_model.window_size).1 * denoiser_model.scale,
       (pad_dims (working_dims denoiser_model 100 50).1 (working_dims denoiser_model 100 50).2
          denoiser_model.window_size).2 * denoiser_model.scale)) :=
  ⟨by decide, by decide, by decide, by decide, by decide,
    crop_target_uses_prepad_dims denoiser_model 100 50
      (by decide) (by decide) (by decide) (by decide) (by decide)⟩

/-- C4 (amended): the resize policy truncates the scaled dimensions
toward zero (the Rust `as u32` cast) rather than rounding to nearest;
with truncation a 1000×300 image (cap 512, minimum 0) becomes 512×153, a
32×32 image with minimum 512 becomes 512×512, and any image with both
dimensions in `[minimumDimension, 512]` is returned unchanged. -/
theorem size_policy (min_dim w h : ℕ)
    (h1 : min_dim ≤ w) (h2 : w ≤ 512) (h3 : min_dim ≤ h) (h4 : h ≤ 512) :
    resize_target_dims 1000 300 0 = (512, 153) ∧
    resize_target_dims 32 32 512 = (512, 512) ∧
    resize_target_dims w h min_dim = (w, h) := by
  refine ⟨resize_eval_1000_300, resize_eval_32_32, ?_⟩
  rw [resize_target_dims]
  have hmax : 512 ≤ max 512 min_dim := le_max_left _ _
  rw [if_neg (by omega)]

/-- Witness for C4: a 100×200 image with no minimum is unchanged. -/
theorem size_policy_witness :
    (0 : ℕ) ≤ 100 ∧ (100 : ℕ) ≤ 512 ∧ (0 : ℕ) ≤ 200 ∧ (200 : ℕ) ≤ 512 ∧
    (resize_target_dims 1000 300 0 = (512, 153) ∧
     resize_target_dims 32 32 512 = (512, 512) ∧
     resize_target_dims 100 200 0 = (100, 200)) :=
  ⟨by decide, by decide, by decide, by decide,
    size_policy 0 100 200 (by decide) (by decide) (by decide) (by decide)⟩

/-- C4 counterexample: the claim's stated rounding rule ("result rounded
to nearest integer") disagrees with the code — and with the claim's own
expected output — at its own example: rounding 300·0.512 = 153.6 to
nearest gives height 154, while the code truncates to 153. -/
theorem size_policy_rounding_counterexample :
    resize_target_dims_round 1000 300 0 = (512, 154) ∧
    resize_target_dims 1000 300 0 = (512, 153) ∧
    resize_target_dims_round 1000 300 0 ≠ resize_target_dims 1000 300 0 := by
  refine ⟨round_eval_1000_300, resize_eval_1000_300, ?_⟩
  rw [round_eval_1000_300, resize_eval_1000_300]
  decide

/-- C10: whenever the resize policy yields a working dimension of zero,
the pipeline returns the `"Invalid padded dimensions"` error, for every
possible behaviour of the downstream encode/inference steps (they are
never reached). -/
theorem zero_dim_guard (m : ModelInfo) (orig_w orig_h : ℕ)
    (h0 : (working_dims m orig_w orig_h).1 = 0 ∨ (working_dims m orig_w orig_h).2 = 0)
    (infer : ℕ × ℕ → ℕ × ℕ) :
    process_single_image_dims m infer orig_w orig_h = .error "Invalid padded dimensions" := by
  rw [process_single_image_dims]
  set wd := working_dims m orig_w orig_h with hwd
  have hz : ∀ ws, 1 < ws → ((0 + ws - 1) / ws) * ws = 0 := by
    intro ws hws
    rw [Nat.zero_add, Nat.div_eq_of_lt (by omega), Nat.zero_mul]
  have hpz : (if 1 < m.window_size then pad_dims wd.1 wd.2 m.window_size else wd).1 = 0 ∨
      (if 1 < m.window_size then pad_dims wd.1 wd.2 m.window_size else wd).2 = 0 := by
    rcases h0 with h | h
    · left
      split
      · next hws =>
        rw [pad_dims]
        simp only [h]
        exact hz _ hws
      · exact h
    · right
      split
      · next hws =>
        rw [pad_dims]
        simp only [h]
        exact hz _ hws
      · exact h
  rw [if_pos hpz]

/-- Witness for C10: a 10000×1 image under the `denoiser` profile: the
downscale factor 512/10000 truncates the height to 0 and the pipeline
rejects it. -/
theorem zero_dim_guard_witness :
    ((working_dims denoiser_model 10000 1).1 = 0 ∨ (working_dims denoiser_model 10000 1).2 = 0) ∧
    process_single_image_dims denoiser_model (fun d => (d.1 * 4, d.2 * 4)) 10000 1
      = .error "Invalid padded dimensions" :=
  ⟨Or.inr (by simp [working_dims, denoiser_model, resize_eval_10000_1]),
    zero_dim_guard denoiser_model 10000 1
      (Or.inr (by simp [working_dims, denoiser_model, resize_eval_10000_1])) _⟩

theorem toOption_ok {ε α : Type} (a : α) :
    (Except.ok a : Except ε α).toOption = some a := rfl

theorem toOption_error {ε α : Type} (e : ε) :
    (Except.error e : Except ε α).toOption = none := rfl

theorem process_images_loop_eq {α β : Type} (step : α → Except String β)
    (files : List α) (acc : List β) :
    process_images_loop step files acc =
      acc ++ files.filterMap fun f => (step f).toOption := by
  induction files generalizing acc with
  | nil => simp [process_images_loop]
  | cons f rest ih =>
    cases hstep : step f with
    | ok r =>
      simp only [process_images_loop, hstep, List.filterMap_cons, toOption_ok]
      rw [ih]
      simp
    | error e =>
      simp only [process_images_loop, hstep, List.filterMap_cons, toOption_error]
      exact ih acc

/-- C5 (amended): the batch loop returns `Ok` of the successful results
only — a failed item is logged and skipped, contributing nothing to the
returned value (no failure record), and the items after it are still
processed; the call itself never errors on an item failure. -/
theorem process_images_partial_failure {α β : Type} (step : α → Except String β)
    (pre post : List α) (x : α) (hx : (step x).toOption = none) :
    process_images_model step (pre ++ x :: post) =
      .ok ((pre.filterMap fun f => (step f).toOption) ++
           (post.filterMap fun f => (step f).toOption)) := by
  rw [process_images_model, process_images_loop_eq]
  simp [List.filterMap_append, List.filterMap_cons, hx]

/-- The per-item step of the claims' 5-item example: item 3 is a corrupt
file, every other item succeeds. -/
def step5 (n : ℕ) : Except String ℕ :=
  if n = 3 then .error "corrupt file" else .ok (n * 10)

/-- Witness for C5: 5 items with item 3 corrupt. -/
theorem process_images_partial_failure_witness :
    (step5 3).toOption = none ∧
    process_images_model step5 ([1, 2] ++ 3 :: [4, 5]) =
      .ok (([1, 2].filterMap fun f => (step5 f).toOption) ++
           ([4, 5].filterMap fun f => (step5 f).toOption)) :=
  ⟨by decide, process_images_partial_failure step5 [1, 2] [4, 5] 3 (by decide)⟩

/-- C5 counterexample: the batch call does not return "one failure record
per failed item".  The 5-item batch in which item 3 fails returns exactly
the 4 successes and nothing else — the very same value as a 4-item batch
with no failure at all — so the returned value carries no failure record. -/
theorem process_images_no_failure_records :
    process_images_model step5 [1, 2, 3, 4, 5] = .ok [10, 20, 40, 50] ∧
    process_images_model step5 [1, 2, 4, 5] = process_images_model step5 [1, 2, 3, 4, 5] := by
  constructor
  · rfl
  · rfl

/-- C6: evidence of the code/spec divergence — with 5 extracted frames of
which frame 3 fails to process, `process_video_blocking` does not fail
the run: the frame error is only printed, reassembly proceeds over the 4
surviving frames, and the run returns `Ok`. -/
theorem video_run_succeeds_despite_frame_failure :
    (step5 3).toOption = none ∧
    process_video_blocking_model step5 (fun l => .ok l) [1, 2, 3, 4, 5] =
      .ok [10, 20, 40, 50] := by
  constructor
  · decide
  · rfl

/-- C7 (amended): the encode step always produces a tensor of shape
`[1, 3, H, W]` (channels-first), whatever `tensor_format` the model
profile declares: the field is never consulted. -/
theorem preprocess_shape_always_nchw (img : Img) (m : ModelInfo) :
    (preprocess_image_for_model img m).shape = (1, 3, img.height, img.width) := rfl

/-- A concrete 2×2 test image. -/
def test_img2 : Img := ⟨2, 2, fun _ _ _ => 128⟩

/-- C7 counterexample: the `denoiser` profile declares the channels-last
(`NHWC`) layout, for which the claim requires shape `[1, H, W, 3]` —
`(1, 2, 2, 3)` on a 2×2 image — but the encode step produces
`(1, 3, 2, 2)`. -/
theorem preprocess_layout_counterexample :
    denoiser_model.tensor_format = TensorFormat.NHWC ∧
    (preprocess_image_for_model test_img2 denoiser_model).shape = (1, 3, 2, 2) ∧
    (preprocess_image_for_model test_img2 denoiser_model).shape ≠
      (1, test_img2.height, test_img2.width, 3) := by
  refine ⟨rfl, rfl, ?_⟩
  decide

/-- C8 (amended): the decode step reads height and width from the
tensor's own declared shape — the decoded image has
`width = shape[3]` and `height = shape[2]` — but performs no
channel-count validation: with batch ≥ 1 and at least 3 channels it
decodes the first three channels without any error, and with a bad
batch/channel extent (and non-empty spatial dims) it panics on an
out-of-bounds index instead of returning a ShapeError. -/
theorem postprocess_shape_handling (t : Tensor4) (m : ModelInfo) :
    (1 ≤ t.shape.1 → 3 ≤ t.shape.2.1 →
      postprocess_tensor_for_model t m =
        some { width := t.shape.2.2.2, height := t.shape.2.2.1,
               pixel := fun x y c => denormalize_fn m.output_norm (t.data 0 c y x) }) ∧
    ((t.shape.1 = 0 ∨ t.shape.2.1 < 3) → 0 < t.shape.2.2.1 → 0 < t.shape.2.2.2 →
      postprocess_tensor_for_model t m = none) := by
  constructor
  · intro hb hc
    rw [postprocess_tensor_for_model, if_neg]
    rintro ⟨_, _, hor | hor⟩
    · omega
    · omega
  · intro hor hh hw
    rw [postprocess_tensor_for_model, if_pos ⟨hh, hw, hor⟩]

/-- A concrete output tensor with 4 channels. -/
def t_4ch : Tensor4 := ⟨(1, 4, 2, 2), fun _ _ _ _ => 0⟩

/-- Witness for C8: a `[1, 4, 2, 2]` tensor decodes to a 2×2 image whose
dimensions come from the shape. -/
theorem postprocess_shape_handling_witness :
    1 ≤ t_4ch.shape.1 ∧ 3 ≤ t_4ch.shape.2.1 ∧
    postprocess_tensor_for_model t_4ch denoiser_model =
      some { width := t_4ch.shape.2.2.2, height := t_4ch.shape.2.2.1,
             pixel := fun x y c =>
               denormalize_fn denoiser_model.output_norm (t_4ch.data 0 c y x) } :=
  ⟨by decide, by decide,
    (postprocess_shape_handling t_4ch denoiser_model).1 (by decide) (by decide)⟩

/-- C8 counterexample: a tensor whose channel count is 4 — not 3 — is
decoded without any failure (no ShapeError, no panic): the claim's
"fails whenever the channel count is not 3" is false. -/
theorem postprocess_channel_check_counterexample :
    t_4ch.shape.2.1 ≠ 3 ∧
    (postprocess_tensor_for_model t_4ch denoiser_model).isSome = true := by
  constructor
  · decide
  · decide

end SRU
